import Mathlib

/-!
Verification of the Lumina Headphones start-up core: the runtime
capability detector and the feature-gate consumer in `main.js`.

The feature-gate consumer (`App.init` and its helpers) is embedded from
`src/main.js`. The capability detector lives in `runtime-controller.js`,
which is not part of the provided sources; its embedding is modelled from
the specification (section 4.1) and each such definition is marked
accordingly in its doc comment.
-/

set_option autoImplicit false

namespace Lumina

/-- Modelled from the spec: the raw environment signals read by the
capability detector in `runtime-controller.js` (missing from the sources):
device memory estimate, logical core count, network quality class,
reduced-motion preference, viewport width. -/
structure Signals where
  deviceMemory : Nat
  cores : Nat
  network : String
  reducedMotion : Bool
  viewportWidth : Nat
deriving Repr, DecidableEq

/-- The fixed-shape record of boolean feature gates of a CapabilityState. -/
structure Decisions where
  allowAnimations : Bool
  allowHeavy : Bool
  allowWebGL : Bool
deriving Repr, DecidableEq

/-- A CapabilityState snapshot: numeric suitability score, the gate
decisions, and the raw signals retained for diagnostics. -/
structure CapabilityState where
  score : Nat
  decisions : Decisions
  signals : Signals
deriving Repr, DecidableEq

/-- Modelled from the spec: point weight for the device memory signal
(higher device memory earns more points). -/
def memoryPoints (m : Nat) : Nat :=
  if 8 ≤ m then 30 else if 4 ≤ m then 20 else if 2 ≤ m then 10 else 5

/-- Modelled from the spec: point weight for the logical core count
(multi-core earns more points). -/
def corePoints (c : Nat) : Nat :=
  if 8 ≤ c then 25 else if 4 ≤ c then 15 else 5

/-- Modelled from the spec: point weight for the network quality class
(fast network class earns more points; an unknown class falls back to a
neutral default value). -/
def networkPoints (n : String) : Nat :=
  if n = "4g" then 25
  else if n = "3g" then 15
  else if n = "2g" ∨ n = "slow-2g" then 0
  else 15

/-- Modelled from the spec: point weight for the viewport width signal. -/
def viewportPoints (w : Nat) : Nat :=
  if 1024 ≤ w then 20 else if 768 ≤ w then 10 else 5

/-- Modelled from the spec: the low cut point, deciding allowAnimations. -/
def lowThreshold : Nat := 40

/-- Modelled from the spec: the higher cut point, deciding allowHeavy and
allowWebGL. -/
def highThreshold : Nat := 70

/-- Modelled from the spec: the summed capability score of the signals. -/
def computeScore (s : Signals) : Nat :=
  memoryPoints s.deviceMemory + corePoints s.cores
    + networkPoints s.network + viewportPoints s.viewportWidth

/-- Modelled from the spec: thresholding a score against the two cut
points to obtain the three gate decisions. -/
def decisionsOfScore (score : Nat) : Decisions :=
  { allowAnimations := decide (lowThreshold ≤ score)
    allowHeavy := decide (highThreshold ≤ score)
    allowWebGL := decide (highThreshold ≤ score) }

/-- Modelled from the spec: `getState` of `runtime-controller.js` (missing
from the sources). The reduced-motion override is checked first and
short-circuits the scoring, forcing every gate to false; otherwise the
signals are summed to a score and the score is thresholded. -/
def getState (s : Signals) : CapabilityState :=
  if s.reducedMotion then
    { score := 0
      decisions := { allowAnimations := false, allowHeavy := false, allowWebGL := false }
      signals := s }
  else
    let score := computeScore s
    { score := score, decisions := decisionsOfScore score, signals := s }

/-- Modelled from the spec: two successive `getState` calls within the
same process, with unchanged environment signals. -/
def getStateTwice (s : Signals) : CapabilityState × CapabilityState :=
  (getState s, getState s)

/-- Modelled from the spec: `isAllowed` of `runtime-controller.js`
(missing from the sources): look up a named gate in the current state, and
return false for an unrecognized gate name. -/
def isAllowed (st : CapabilityState) (gateName : String) : Bool :=
  if gateName = "allowAnimations" then st.decisions.allowAnimations
  else if gateName = "allowHeavy" then st.decisions.allowHeavy
  else if gateName = "allowWebGL" then st.decisions.allowWebGL
  else false

/-- The outcome of a call into a JavaScript collaborator: either a normal
return value or a thrown exception carrying a message. -/
inductive Outcome (α : Type) where
  | ok (value : α) : Outcome α
  | thrown (message : String) : Outcome α
deriving Repr, DecidableEq

/-- The result record returned by the `renderAllProducts` collaborator:
`{ success, successful, total, error }`. -/
structure RenderResult where
  success : Bool
  successful : Nat
  total : Nat
  error : String
deriving Repr, DecidableEq

/-- The host environment of one `App.init` run: the outcome of each
collaborator call and the host globals read by `main.js`. -/
structure Env where
  domReady : Outcome Unit
  capRead : Outcome Signals
  productsLoad : Outcome Unit
  renderCall : Outcome RenderResult
  gsapAvailable : Bool
  gsapLoad : Outcome Unit
  threeAvailable : Bool
  webglCheck : Outcome Unit
  innerWidth : Nat
deriving Repr, DecidableEq

/-- The observable events of one `App.init` run, in program order. -/
inductive Event where
  | domWaited
  | stateComputed
  | productsLoaded
  | renderSucceeded
  | animationsInvoked
  | webglInvoked
  | scrollInitialized
  | mouseInteractionsSetup
  | buttonInteractionsSetup
  | floatingAnimationStarted
  | errorReported (phase : String)
  | fallbackShown
deriving Repr, DecidableEq

/-- Embeds `App.loadGSAPAnimations` (main.js lines 113-161): after the
intro timeline is built, mouse interactions are set up only on a wide
viewport with the allowHeavy gate, then button interactions are wired. -/
def loadGSAPAnimations (width : Nat) (st : CapabilityState) : List Event :=
  (if 1024 < width ∧ isAllowed st "allowHeavy" = true
    then [Event.mouseInteractionsSetup] else [])
    ++ [Event.buttonInteractionsSetup]

/-- Embeds the onComplete callback of the intro timeline (main.js lines
142-152): the repeating floating animation of the main image starts only
when the allowHeavy gate is allowed at completion time. -/
def introOnComplete (st : CapabilityState) : List Event :=
  if isAllowed st "allowHeavy" = true then [Event.floatingAnimationStarted] else []

/-- Embeds `App.initializeAnimations` (main.js lines 95-108): when gsap is
present, load the GSAP animations; a thrown exception is caught locally
and reported with phase animations; when gsap is absent, only a console
warning is emitted and nothing is set up. -/
def initializeAnimations (env : Env) (st : CapabilityState) : List Event :=
  if env.gsapAvailable then
    match env.gsapLoad with
    | Outcome.ok _ => loadGSAPAnimations env.innerWidth st
    | Outcome.thrown _ => [Event.errorReported "animations"]
  else []

/-- Embeds `App.initializeWebGL` (main.js lines 224-236): the body only
probes for THREE and logs; a thrown exception is caught locally and
reported with phase webgl. -/
def initializeWebGL (env : Env) : List Event :=
  match env.webglCheck with
  | Outcome.ok _ => []
  | Outcome.thrown _ => [Event.errorReported "webgl"]

/-- The outcome of one `App.init` run: the event trace and the final
value of the initialized flag. -/
structure InitResult where
  events : List Event
  initialized : Bool
deriving Repr, DecidableEq

/-- Embeds the `App` instance state (main.js constructor, lines 15-19). -/
structure App where
  initialized : Bool
deriving Repr, DecidableEq

/-- Embeds the `App` constructor: the initialized flag starts false. -/
def App.new : App := { initialized := false }

/-- Embeds `App.init` (main.js lines 24-74): wait for the DOM, read the
capability state, load product data, render products (treating a result
with success false as a thrown error), then run the gated activations and
the unconditional scroll setup; any exception of the core sequence is
caught at the top level, reported with phase initialization, and the
fallback UI is shown. -/
def App.init (env : Env) : InitResult :=
  match env.domReady with
  | Outcome.thrown _ =>
      { events := [Event.errorReported "initialization", Event.fallbackShown]
        initialized := false }
  | Outcome.ok _ =>
    match env.capRead with
    | Outcome.thrown _ =>
        { events := [Event.domWaited, Event.errorReported "initialization", Event.fallbackShown]
          initialized := false }
    | Outcome.ok signals =>
      let st := getState signals
      match env.productsLoad with
      | Outcome.thrown _ =>
          { events := [Event.domWaited, Event.stateComputed,
              Event.errorReported "initialization", Event.fallbackShown]
            initialized := false }
      | Outcome.ok _ =>
        match env.renderCall with
        | Outcome.thrown _ =>
            { events := [Event.domWaited, Event.stateComputed, Event.productsLoaded,
                Event.errorReported "initialization", Event.fallbackShown]
              initialized := false }
        | Outcome.ok r =>
          if r.success then
            { events :=
                [Event.domWaited, Event.stateComputed, Event.productsLoaded,
                  Event.renderSucceeded]
                ++ (if st.decisions.allowAnimations then
                      Event.animationsInvoked :: initializeAnimations env st
                    else [])
                ++ (if st.decisions.allowWebGL then
                      Event.webglInvoked :: initializeWebGL env
                    else [])
                ++ [Event.scrollInitialized]
              initialized := true }
          else
            { events := [Event.domWaited, Event.stateComputed, Event.productsLoaded,
                Event.errorReported "initialization", Event.fallbackShown]
              initialized := false }

/-- The core start-up sequence of an `App.init` run completes without an
exception: the DOM wait, capability read, product load and render call all
return normally and the render result reports success. -/
def coreOk (env : Env) : Bool :=
  match env.domReady, env.capRead, env.productsLoad, env.renderCall with
  | Outcome.ok _, Outcome.ok _, Outcome.ok _, Outcome.ok r => r.success
  | _, _, _, _ => false

/-- Every event of the animation activation path is a mouse setup, a
button setup, or an error report with phase animations. -/
theorem mem_initializeAnimations (env : Env) (st : CapabilityState) (e : Event)
    (h : e ∈ initializeAnimations env st) :
    e = Event.mouseInteractionsSetup ∨ e = Event.buttonInteractionsSetup ∨
      e = Event.errorReported "animations" := by
  unfold initializeAnimations at h
  split at h
  · cases hg : env.gsapLoad <;> rw [hg] at h
    · unfold loadGSAPAnimations at h
      rcases List.mem_append.mp h with h2 | h2
      · split at h2 <;> simp_all
      · simp_all
    · simp_all
  · simp_all

/-- Every event of the WebGL activation path is an error report with
phase webgl. -/
theorem mem_initializeWebGL (env : Env) (e : Event)
    (h : e ∈ initializeWebGL env) : e = Event.errorReported "webgl" := by
  unfold initializeWebGL at h
  cases hw : env.webglCheck <;> rw [hw] at h <;> simp_all

/-- The animation activation path never emits the animationsInvoked,
webglInvoked, scrollInitialized or fallbackShown marker. -/
theorem initializeAnimations_no_markers (env : Env) (st : CapabilityState) :
    Event.animationsInvoked ∉ initializeAnimations env st ∧
    Event.webglInvoked ∉ initializeAnimations env st ∧
    Event.scrollInitialized ∉ initializeAnimations env st ∧
    Event.fallbackShown ∉ initializeAnimations env st := by
  refine ⟨fun h => ?_, fun h => ?_, fun h => ?_, fun h => ?_⟩ <;>
    rcases mem_initializeAnimations env st _ h with h1 | h1 | h1 <;> simp_all

/-- The WebGL activation path never emits the animationsInvoked,
webglInvoked, scrollInitialized or fallbackShown marker. -/
theorem initializeWebGL_no_markers (env : Env) :
    Event.animationsInvoked ∉ initializeWebGL env ∧
    Event.webglInvoked ∉ initializeWebGL env ∧
    Event.scrollInitialized ∉ initializeWebGL env ∧
    Event.fallbackShown ∉ initializeWebGL env := by
  refine ⟨fun h => ?_, fun h => ?_, fun h => ?_, fun h => ?_⟩ <;>
    have h1 := mem_initializeWebGL env _ h <;> simp_all

/-- A fully capable signal set with reduced motion requested (the third
scenario of spec section 8). -/
def sigReducedHigh : Signals :=
  { deviceMemory := 8, cores := 8, network := "4g", reducedMotion := true, viewportWidth := 1440 }

/-- A fully capable signal set without reduced motion (the first scenario
of spec section 8). -/
def sigHigh : Signals :=
  { deviceMemory := 8, cores := 8, network := "4g", reducedMotion := false, viewportWidth := 1440 }

/-- C1: whenever the reduced-motion preference is requested, the computed
CapabilityState has all three gates false, regardless of the other
signals; the reduced-motion branch of getState short-circuits the
scoring. -/
theorem reducedMotionForcesAllGatesOff (s : Signals) (h : s.reducedMotion = true) :
    (getState s).decisions.allowAnimations = false ∧
    (getState s).decisions.allowHeavy = false ∧
    (getState s).decisions.allowWebGL = false := by
  simp [getState, h]

/-- Witness for C1: a concrete high-capability signal set with reduced
motion requested still has every gate false. -/
theorem reducedMotionForcesAllGatesOff_witness :
    sigReducedHigh.reducedMotion = true ∧
    ((getState sigReducedHigh).decisions.allowAnimations = false ∧
     (getState sigReducedHigh).decisions.allowHeavy = false ∧
     (getState sigReducedHigh).decisions.allowWebGL = false) :=
  ⟨by decide, reducedMotionForcesAllGatesOff sigReducedHigh (by decide)⟩

/-- C6: isAllowed returns false for every gate name other than the three
recognized gates of the decisions record; being a total function, it never
throws. -/
theorem unknownGateDisallowed (st : CapabilityState) (name : String)
    (h1 : name ≠ "allowAnimations") (h2 : name ≠ "allowHeavy") (h3 : name ≠ "allowWebGL") :
    isAllowed st name = false := by
  simp [isAllowed, h1, h2, h3]

/-- Witness for C6: a concrete unrecognized gate name is disallowed. -/
theorem unknownGateDisallowed_witness :
    isAllowed (getState sigHigh) "allowTurbo" = false :=
  unknownGateDisallowed (getState sigHigh) "allowTurbo"
    (by decide) (by decide) (by decide)

/-- C7: two successive getState calls within the same process, with
unchanged environment signals, return snapshots with identical score and
identical decisions. -/
theorem getStateRepeatable (s : Signals) :
    (getStateTwice s).1.score = (getStateTwice s).2.score ∧
    (getStateTwice s).1.decisions = (getStateTwice s).2.decisions :=
  ⟨rfl, rfl⟩

/-- C8: without reduced motion, the gates are exactly the thresholding of
the summed score against the two cut points, the allowAnimations cut point
is no higher than the allowHeavy and allowWebGL cut point, allowHeavy or
allowWebGL being true forces allowAnimations true, and every gate is
monotone in the score. -/
theorem scoreThresholdStructure (s : Signals) (h : s.reducedMotion = false) :
    (getState s).decisions = decisionsOfScore (getState s).score ∧
    lowThreshold ≤ highThreshold ∧
    (((getState s).decisions.allowHeavy = true ∨ (getState s).decisions.allowWebGL = true) →
      (getState s).decisions.allowAnimations = true) ∧
    (∀ n m : Nat, n ≤ m →
      ((decisionsOfScore n).allowAnimations = true → (decisionsOfScore m).allowAnimations = true) ∧
      ((decisionsOfScore n).allowHeavy = true → (decisionsOfScore m).allowHeavy = true) ∧
      ((decisionsOfScore n).allowWebGL = true → (decisionsOfScore m).allowWebGL = true)) := by
  refine ⟨?_, by decide, ?_, ?_⟩
  · simp [getState, h]
  · simp only [getState, h, if_neg Bool.false_ne_true, decisionsOfScore,
      decide_eq_true_eq, lowThreshold, highThreshold]
    omega
  · intro n m hnm
    simp only [decisionsOfScore, decide_eq_true_eq, lowThreshold, highThreshold]
    omega

/-- Witness for C8: the first scenario of spec section 8, a strong device
on a fast network, has its gates equal to the thresholded score, scores
above the high threshold, and has all three gates true. -/
theorem scoreThresholdStructure_witness :
    ((getState sigHigh).decisions = decisionsOfScore (getState sigHigh).score ∧
     lowThreshold ≤ highThreshold ∧
     (((getState sigHigh).decisions.allowHeavy = true ∨
       (getState sigHigh).decisions.allowWebGL = true) →
       (getState sigHigh).decisions.allowAnimations = true) ∧
     (∀ n m : Nat, n ≤ m →
       ((decisionsOfScore n).allowAnimations = true → (decisionsOfScore m).allowAnimations = true) ∧
       ((decisionsOfScore n).allowHeavy = true → (decisionsOfScore m).allowHeavy = true) ∧
       ((decisionsOfScore n).allowWebGL = true → (decisionsOfScore m).allowWebGL = true))) ∧
    highThreshold < (getState sigHigh).score ∧
    (getState sigHigh).decisions.allowAnimations = true ∧
    (getState sigHigh).decisions.allowHeavy = true ∧
    (getState sigHigh).decisions.allowWebGL = true :=
  ⟨scoreThresholdStructure sigHigh (by decide), by decide, by decide, by decide, by decide⟩

/-- A render result reporting overall success. -/
def renderOk : RenderResult :=
  { success := true, successful := 5, total := 5, error := "" }

/-- A render result reporting overall failure. -/
def renderFail : RenderResult :=
  { success := false, successful := 0, total := 5, error := "render failed" }

/-- A host environment whose core sequence succeeds, with gsap and THREE
present and a wide viewport. -/
def envHappy : Env :=
  { domReady := Outcome.ok (), capRead := Outcome.ok sigHigh
    productsLoad := Outcome.ok (), renderCall := Outcome.ok renderOk
    gsapAvailable := true, gsapLoad := Outcome.ok ()
    threeAvailable := true, webglCheck := Outcome.ok (), innerWidth := 1440 }

/-- A host environment whose render call reports overall failure. -/
def envRenderFail : Env :=
  { envHappy with renderCall := Outcome.ok renderFail }

/-- C2: in every init run whose render call returns a result with success
false, neither the animation activation path nor the WebGL activation path
is invoked, and the fallback UI is shown. -/
theorem renderFailureSkipsEnhancements (env : Env) (s : Signals) (r : RenderResult)
    (hdom : env.domReady = Outcome.ok ())
    (hcap : env.capRead = Outcome.ok s)
    (hprod : env.productsLoad = Outcome.ok ())
    (hrender : env.renderCall = Outcome.ok r)
    (hfail : r.success = false) :
    Event.animationsInvoked ∉ (App.init env).events ∧
    Event.webglInvoked ∉ (App.init env).events ∧
    Event.fallbackShown ∈ (App.init env).events := by
  simp [App.init, hdom, hcap, hprod, hrender, hfail]

/-- Witness for C2: in a concrete environment whose render call fails,
no activation marker appears and the fallback UI is shown. -/
theorem renderFailureSkipsEnhancements_witness :
    Event.animationsInvoked ∉ (App.init envRenderFail).events ∧
    Event.webglInvoked ∉ (App.init envRenderFail).events ∧
    Event.fallbackShown ∈ (App.init envRenderFail).events :=
  renderFailureSkipsEnhancements envRenderFail sigHigh renderFail
    rfl rfl rfl rfl rfl

/-- C4: in every init run whose core sequence succeeds, the animation
activation path is invoked iff allowAnimations is true, the WebGL
activation path is invoked iff allowWebGL is true, and scroll setup runs
unconditionally, whatever the capability decisions are. -/
theorem capabilityGatedActivation (env : Env) (s : Signals) (r : RenderResult)
    (hdom : env.domReady = Outcome.ok ())
    (hcap : env.capRead = Outcome.ok s)
    (hprod : env.productsLoad = Outcome.ok ())
    (hrender : env.renderCall = Outcome.ok r)
    (hsucc : r.success = true) :
    (Event.animationsInvoked ∈ (App.init env).events ↔
      (getState s).decisions.allowAnimations = true) ∧
    (Event.webglInvoked ∈ (App.init env).events ↔
      (getState s).decisions.allowWebGL = true) ∧
    Event.scrollInitialized ∈ (App.init env).events := by
  have hanim := initializeAnimations_no_markers env (getState s)
  have hweb := initializeWebGL_no_markers env
  cases ha : (getState s).decisions.allowAnimations <;>
    cases hw : (getState s).decisions.allowWebGL <;>
      simp_all [App.init, hdom, hcap, hprod, hrender, hsucc]

/-- Witness for C4: in a concrete fully capable environment, both
activation markers and the scroll marker appear, matching the gates. -/
theorem capabilityGatedActivation_witness :
    ((Event.animationsInvoked ∈ (App.init envHappy).events ↔
       (getState sigHigh).decisions.allowAnimations = true) ∧
     (Event.webglInvoked ∈ (App.init envHappy).events ↔
       (getState sigHigh).decisions.allowWebGL = true) ∧
     Event.scrollInitialized ∈ (App.init envHappy).events) ∧
    (getState sigHigh).decisions.allowAnimations = true ∧
    (getState sigHigh).decisions.allowWebGL = true :=
  ⟨capabilityGatedActivation envHappy sigHigh renderOk rfl rfl rfl rfl rfl,
   by decide, by decide⟩

/-- The WebGL activation path never reports phase animations. -/
theorem count_animPhase_initializeWebGL (env : Env) :
    (initializeWebGL env).count (Event.errorReported "animations") = 0 := by
  unfold initializeWebGL
  split <;> rfl

/-- The animation activation path never reports phase webgl. -/
theorem count_webglPhase_initializeAnimations (env : Env) (st : CapabilityState) :
    (initializeAnimations env st).count (Event.errorReported "webgl") = 0 := by
  unfold initializeAnimations
  split
  · split
    · unfold loadGSAPAnimations
      split <;> rfl
    · rfl
  · rfl

/-- C3: in every init run whose core sequence succeeds, an exception
thrown during animation activation (resp. WebGL activation) is caught at
its activation site, reported exactly once with phase animations (resp.
webgl), does not propagate, and scroll setup still executes afterward. -/
theorem enhancementFailuresIsolated (env : Env) (s : Signals) (r : RenderResult)
    (hdom : env.domReady = Outcome.ok ())
    (hcap : env.capRead = Outcome.ok s)
    (hprod : env.productsLoad = Outcome.ok ())
    (hrender : env.renderCall = Outcome.ok r)
    (hsucc : r.success = true) :
    ((getState s).decisions.allowAnimations = true → env.gsapAvailable = true →
      ∀ m : String, env.gsapLoad = Outcome.thrown m →
        ((App.init env).events.count (Event.errorReported "animations") = 1 ∧
         Event.scrollInitialized ∈ (App.init env).events ∧
         (App.init env).initialized = true)) ∧
    ((getState s).decisions.allowWebGL = true →
      ∀ m : String, env.webglCheck = Outcome.thrown m →
        ((App.init env).events.count (Event.errorReported "webgl") = 1 ∧
         Event.scrollInitialized ∈ (App.init env).events ∧
         (App.init env).initialized = true)) := by
  constructor
  · intro hallow hg m hl
    have h0 := count_animPhase_initializeWebGL env
    cases hw : (getState s).decisions.allowWebGL <;>
      simp [App.init, hdom, hcap, hprod, hrender, hsucc, hallow, hw, hg, hl,
        initializeAnimations, List.count_append, List.count_cons, h0]
  · intro hallow m hl
    have h0 := count_webglPhase_initializeAnimations env (getState s)
    cases ha : (getState s).decisions.allowAnimations <;>
      simp [App.init, hdom, hcap, hprod, hrender, hsucc, hallow, ha, hl,
        initializeWebGL, List.count_append, List.count_cons, h0]

/-- A host environment with the core sequence succeeding, gsap present
but throwing during animation loading, and WebGL probing throwing too. -/
def envEnhancementsThrow : Env :=
  { envHappy with gsapLoad := Outcome.thrown "gsap exploded"
                  webglCheck := Outcome.thrown "webgl exploded" }

/-- Witness for C3: in a concrete environment where both activations
throw, each phase is reported exactly once, scroll setup still runs, and
initialization completes. -/
theorem enhancementFailuresIsolated_witness :
    ((App.init envEnhancementsThrow).events.count (Event.errorReported "animations") = 1 ∧
     Event.scrollInitialized ∈ (App.init envEnhancementsThrow).events ∧
     (App.init envEnhancementsThrow).initialized = true) ∧
    ((App.init envEnhancementsThrow).events.count (Event.errorReported "webgl") = 1 ∧
     Event.scrollInitialized ∈ (App.init envEnhancementsThrow).events ∧
     (App.init envEnhancementsThrow).initialized = true) :=
  ⟨(enhancementFailuresIsolated envEnhancementsThrow sigHigh renderOk
      rfl rfl rfl rfl rfl).1 (by decide) rfl "gsap exploded" rfl,
   (enhancementFailuresIsolated envEnhancementsThrow sigHigh renderOk
      rfl rfl rfl rfl rfl).2 (by decide) "webgl exploded" rfl⟩

/-- Unfolding of a successful core sequence: every collaborator call of
the core sequence returned normally and the render result reports
success. -/
theorem coreOk_spec (env : Env) (h : coreOk env = true) :
    ∃ (s : Signals) (r : RenderResult),
      env.domReady = Outcome.ok () ∧ env.capRead = Outcome.ok s ∧
      env.productsLoad = Outcome.ok () ∧ env.renderCall = Outcome.ok r ∧
      r.success = true := by
  rcases env with ⟨dom, cap, prod, render, gsap, gload, three, wcheck, width⟩
  cases dom <;> cases cap <;> cases prod <;> cases render <;>
    simp_all [coreOk]

/-- Behaviour of init on a failed core sequence: exactly one report with
phase initialization, the fallback UI, and the initialized flag left
false. -/
theorem init_failure (env : Env) (h : coreOk env = false) :
    (App.init env).events.count (Event.errorReported "initialization") = 1 ∧
    Event.fallbackShown ∈ (App.init env).events ∧
    (App.init env).initialized = false := by
  rcases env with ⟨dom, cap, prod, render, gsap, gload, three, wcheck, width⟩
  cases dom <;> cases cap <;> cases prod <;> cases render <;>
    simp_all [App.init, coreOk, List.count_cons]

/-- Behaviour of init on a successful core sequence: the initialized flag
is set and the fallback UI is never shown. -/
theorem init_success (env : Env) (s : Signals) (r : RenderResult)
    (hdom : env.domReady = Outcome.ok ())
    (hcap : env.capRead = Outcome.ok s)
    (hprod : env.productsLoad = Outcome.ok ())
    (hrender : env.renderCall = Outcome.ok r)
    (hsucc : r.success = true) :
    (App.init env).initialized = true ∧
    Event.fallbackShown ∉ (App.init env).events := by
  have h1 := (initializeAnimations_no_markers env (getState s)).2.2.2
  have h2 := (initializeWebGL_no_markers env).2.2.2
  cases ha : (getState s).decisions.allowAnimations <;>
    cases hw : (getState s).decisions.allowWebGL <;>
      simp_all [App.init, hdom, hcap, hprod, hrender, hsucc]

/-- C5: every exception of the core start-up sequence (DOM wait,
capability read, product load, render) is caught at the top level of init,
reported exactly once with phase initialization, and the fallback UI is
shown; init itself returns normally, with the initialized flag false. -/
theorem coreFailureFallsBack (env : Env) (h : coreOk env = false) :
    (App.init env).events.count (Event.errorReported "initialization") = 1 ∧
    Event.fallbackShown ∈ (App.init env).events ∧
    (App.init env).initialized = false :=
  init_failure env h

/-- A host environment whose DOM wait throws. -/
def envDomFail : Env :=
  { envHappy with domReady := Outcome.thrown "document gone" }

/-- Witness for C5: in a concrete environment whose DOM wait throws, the
initialization phase is reported once and the fallback UI is shown. -/
theorem coreFailureFallsBack_witness :
    (App.init envDomFail).events.count (Event.errorReported "initialization") = 1 ∧
    Event.fallbackShown ∈ (App.init envDomFail).events ∧
    (App.init envDomFail).initialized = false :=
  coreFailureFallsBack envDomFail (by decide)

/-- C9: the initialized flag starts false in the constructor, becomes true
exactly on the runs whose whole core sequence completes without an
exception, and stays false on every run that shows the fallback UI. -/
theorem initializedFlagLifecycle :
    App.new.initialized = false ∧
    ∀ env : Env, ((App.init env).initialized = true ↔ coreOk env = true) ∧
      (Event.fallbackShown ∈ (App.init env).events →
        (App.init env).initialized = false) := by
  refine ⟨rfl, fun env => ?_⟩
  by_cases hc : coreOk env = true
  · obtain ⟨s, r, hdom, hcap, hprod, hrender, hsucc⟩ := coreOk_spec env hc
    have hs := init_success env s r hdom hcap hprod hrender hsucc
    exact ⟨⟨fun _ => hc, fun _ => hs.1⟩, fun hf => absurd hf hs.2⟩
  · have hfalse : coreOk env = false := by
      cases hcv : coreOk env
      · rfl
      · exact absurd hcv hc
    have hfail := init_failure env hfalse
    refine ⟨⟨fun ht => absurd ht ?_, fun hcv => absurd hcv hc⟩, fun _ => hfail.2.2⟩
    simp [hfail.2.2]

/-- Witness for C9: the fresh App is uninitialized, and in a concrete
environment whose DOM wait throws, init leaves the flag false. -/
theorem initializedFlagLifecycle_witness :
    App.new.initialized = false ∧ (App.init envDomFail).initialized = false :=
  ⟨initializedFlagLifecycle.1,
   (initializedFlagLifecycle.2 envDomFail).2 (by decide)⟩

/-- C10: inside a successful animation activation, mouse-move 3D tilt
interactions are set up iff the viewport exceeds 1024 and the allowHeavy
gate is allowed; the floating animation starts at intro-timeline
completion iff allowHeavy is allowed then; and with gsap undefined the
activation sets nothing up and reports nothing. -/
theorem animationInternalGating (env : Env) (st : CapabilityState) :
    (env.gsapAvailable = true → env.gsapLoad = Outcome.ok () →
      (Event.mouseInteractionsSetup ∈ initializeAnimations env st ↔
        (1024 < env.innerWidth ∧ isAllowed st "allowHeavy" = true))) ∧
    (Event.floatingAnimationStarted ∈ introOnComplete st ↔
      isAllowed st "allowHeavy" = true) ∧
    (env.gsapAvailable = false → initializeAnimations env st = []) := by
  refine ⟨fun hg hl => ?_, ?_, fun hg => ?_⟩
  · by_cases hc : 1024 < env.innerWidth ∧ isAllowed st "allowHeavy" = true <;>
      simp [initializeAnimations, loadGSAPAnimations, hg, hl, hc]
  · by_cases hh : isAllowed st "allowHeavy" = true <;>
      simp [introOnComplete, hh]
  · simp [initializeAnimations, hg]

/-- A host environment identical to the happy one but with gsap absent. -/
def envNoGsap : Env :=
  { envHappy with gsapAvailable := false }

/-- Witness for C10: with gsap present on a wide capable host the tilt
setup condition is an equivalence at concrete inputs, and with gsap absent
the activation emits no event at all. -/
theorem animationInternalGating_witness :
    (Event.mouseInteractionsSetup ∈ initializeAnimations envHappy (getState sigHigh) ↔
      (1024 < envHappy.innerWidth ∧ isAllowed (getState sigHigh) "allowHeavy" = true)) ∧
    initializeAnimations envNoGsap (getState sigHigh) = [] :=
  ⟨(animationInternalGating envHappy (getState sigHigh)).1 rfl rfl,
   (animationInternalGating envNoGsap (getState sigHigh)).2.2 rfl⟩

end Lumina
